import Mathlib

/-
Verification development for the workflow-orchestration core of the
repository: the state model and its reducers, the memory manager, the
transcription-processing agent and the conversational assistant runtime.
Python code is shallowly embedded: dict-shaped Python values become the
inductive type PyVal, effectful calls (storage, graph execution) become
explicit parameters, and fallible code returns Except.
-/

namespace TheOracle

/-- Roles of chat messages, from `app.core.models.messages`: the class
`HMessage` has role `user`, `SMessage` role `system`, `AMessage` role
`assistant`. -/
inductive MsgRole : Type where
  | user : MsgRole
  | system : MsgRole
  | assistant : MsgRole
deriving DecidableEq, Repr

/-- A chat message (`Message` in `app.core.models.messages`): the concrete
subclass fixes `role`; the instance carries `name` and `content`. -/
structure Msg : Type where
  role : MsgRole
  name : String
  content : String
deriving DecidableEq, Repr

/-- `CollectedData` from `app.core.models.data`. -/
structure CollectedData : Type where
  data : String
  notes : String
deriving DecidableEq, Repr

/-- The reducer from `app/core/utils/operators.py`:
`if not right: return []` then `return operator.add(left, right)`. -/
def reset_when_empty {α : Type} (left right : List α) : List α :=
  if right.isEmpty then [] else left ++ right

/-- Claim C6: for the reset-on-empty reducer used by the `unhandled_tasks` and
`data_for_the_task` fields of `State` (`app/core/states.py`), merging an empty
node output into any current value clears the field (in particular a current
value `[a, b]` becomes `[]`), and merging a non-empty output `[c]` into the
previously cleared field yields exactly `[c]`, not an accumulation. -/
theorem C6_reset_when_empty_laws :
    (∀ (α : Type) (left : List α), reset_when_empty left [] = []) ∧
    (∀ (α : Type) (a b : α), reset_when_empty [a, b] [] = []) ∧
    (∀ (α : Type) (c : α), reset_when_empty [] [c] = [c]) :=
  ⟨fun _ _ => rfl, fun _ _ _ => rfl, fun _ _ => rfl⟩

/-- The list-valued core of `ConversationalState` (`app/core/states.py`):
`chat_history` and `messages` are annotated with the `operator.add` reducer,
`thread_id` and `next` are plain (last-value) fields. -/
structure ConversationalState : Type where
  thread_id : String
  chat_history : List Msg
  messages : List Msg
  next : String
deriving DecidableEq, Repr

/-- A node's partial state update over `ConversationalState`: a field the node
does not mention is `Option.none`. -/
structure ConversationalUpdate : Type where
  thread_id : Option String
  chat_history : Option (List Msg)
  messages : Option (List Msg)
  next : Option String
deriving DecidableEq, Repr

/-- Modelled from the spec: the executor's per-field merge of a node's partial
update into the running state (the graph-execution runtime itself is an
external dependency). Fields annotated with `operator.add` in
`app/core/states.py` are appended to; unannotated fields are overwritten by the
most recent node to set them; a field the update does not mention is left
untouched. -/
def apply_node_update (s : ConversationalState) (u : ConversationalUpdate) :
    ConversationalState :=
  ConversationalState.mk
    (match u.thread_id with
      | Option.some v => v
      | Option.none => s.thread_id)
    (match u.chat_history with
      | Option.some v => s.chat_history ++ v
      | Option.none => s.chat_history)
    (match u.messages with
      | Option.some v => s.messages ++ v
      | Option.none => s.messages)
    (match u.next with
      | Option.some v => v
      | Option.none => s.next)

/-- A sequence of node executions: each node's partial update is merged in
turn. -/
def run_node_updates (s : ConversationalState)
    (us : List ConversationalUpdate) : ConversationalState :=
  us.foldl apply_node_update s

theorem run_node_updates_chat_history_untouched
    (us : List ConversationalUpdate)
    (h : ∀ u ∈ us, u.chat_history = Option.none) :
    ∀ s : ConversationalState,
      (run_node_updates s us).chat_history = s.chat_history := by
  induction us with
  | nil => intro s; rfl
  | cons u us ih =>
    intro s
    have hu := h u (by simp)
    have hrest : ∀ u' ∈ us, u'.chat_history = Option.none := by
      intro u' hu'
      exact h u' (by simp [hu'])
    have := ih hrest (apply_node_update s u)
    simpa [run_node_updates, apply_node_update, hu] using this

theorem run_node_updates_messages_untouched
    (us : List ConversationalUpdate)
    (h : ∀ u ∈ us, u.messages = Option.none) :
    ∀ s : ConversationalState,
      (run_node_updates s us).messages = s.messages := by
  induction us with
  | nil => intro s; rfl
  | cons u us ih =>
    intro s
    have hu := h u (by simp)
    have hrest : ∀ u' ∈ us, u'.messages = Option.none := by
      intro u' hu'
      exact h u' (by simp [hu'])
    have := ih hrest (apply_node_update s u)
    simpa [run_node_updates, apply_node_update, hu] using this

theorem apply_node_update_chat_history_some (s : ConversationalState)
    (u : ConversationalUpdate) (v : List Msg)
    (h : u.chat_history = Option.some v) :
    (apply_node_update s u).chat_history = s.chat_history ++ v := by
  simp [apply_node_update, h]

theorem apply_node_update_messages_some (s : ConversationalState)
    (u : ConversationalUpdate) (v : List Msg)
    (h : u.messages = Option.some v) :
    (apply_node_update s u).messages = s.messages ++ v := by
  simp [apply_node_update, h]

/-- Claim C7: for the append-reducer fields `chat_history` and `messages` of
`ConversationalState`, a node output containing `[m1]` followed, after any
number of node executions whose partial outputs do not mention the field, by an
output containing `[m2]` leaves the field extended by exactly `[m1, m2]` in
that order; and an update mentioning no field leaves the state untouched. -/
theorem C7_append_reducer_law
    (s0 : ConversationalState) (u1 u2 : ConversationalUpdate)
    (us : List ConversationalUpdate) (m1 m2 m3 m4 : Msg)
    (h1c : u1.chat_history = Option.some [m1])
    (h1m : u1.messages = Option.some [m3])
    (h2c : u2.chat_history = Option.some [m2])
    (h2m : u2.messages = Option.some [m4])
    (hus : ∀ u ∈ us, u.chat_history = Option.none ∧
      u.messages = Option.none) :
    (run_node_updates s0 (u1 :: (us ++ [u2]))).chat_history =
        s0.chat_history ++ [m1, m2] ∧
    (run_node_updates s0 (u1 :: (us ++ [u2]))).messages =
        s0.messages ++ [m3, m4] ∧
    (∀ s : ConversationalState,
      apply_node_update s
        (ConversationalUpdate.mk Option.none Option.none Option.none
          Option.none) = s) := by
  have husc : ∀ u ∈ us, u.chat_history = Option.none := fun u hu =>
    (hus u hu).1
  have husm : ∀ u ∈ us, u.messages = Option.none := fun u hu =>
    (hus u hu).2
  have hmid := run_node_updates_chat_history_untouched us husc
    (apply_node_update s0 u1)
  have hmidm := run_node_updates_messages_untouched us husm
    (apply_node_update s0 u1)
  have hsplit : run_node_updates s0 (u1 :: (us ++ [u2])) =
      apply_node_update (run_node_updates (apply_node_update s0 u1) us)
        u2 := by
    simp [run_node_updates, List.foldl_append]
  refine ⟨?_, ?_, ?_⟩
  · rw [hsplit, apply_node_update_chat_history_some _ _ _ h2c, hmid,
      apply_node_update_chat_history_some _ _ _ h1c, List.append_assoc]
    rfl
  · rw [hsplit, apply_node_update_messages_some _ _ _ h2m, hmidm,
      apply_node_update_messages_some _ _ _ h1m, List.append_assoc]
    rfl
  · intro s
    rfl

def c7_msg_a : Msg := Msg.mk MsgRole.user "Human" "hello"

def c7_msg_b : Msg := Msg.mk MsgRole.system "Touchpoint" "hi there"

def c7_msg_c : Msg := Msg.mk MsgRole.system "Manager" "trace one"

def c7_msg_d : Msg := Msg.mk MsgRole.system "Digger" "trace two"

def c7_start_state : ConversationalState :=
  ConversationalState.mk "t1" [] [] "intent_seeker"

def c7_update_one : ConversationalUpdate :=
  ConversationalUpdate.mk Option.none (Option.some [c7_msg_a])
    (Option.some [c7_msg_c]) Option.none

def c7_update_mid : ConversationalUpdate :=
  ConversationalUpdate.mk Option.none Option.none Option.none
    (Option.some "manager")

def c7_update_two : ConversationalUpdate :=
  ConversationalUpdate.mk Option.none (Option.some [c7_msg_b])
    (Option.some [c7_msg_d]) Option.none

/-- Witness for C7: a concrete three-node run whose middle node does not
mention the append fields. -/
theorem C7_append_reducer_law_witness :
    (run_node_updates c7_start_state
        (c7_update_one :: ([c7_update_mid] ++ [c7_update_two]))).chat_history =
      [c7_msg_a, c7_msg_b] := by
  have h := C7_append_reducer_law c7_start_state c7_update_one c7_update_two
    [c7_update_mid] c7_msg_a c7_msg_b c7_msg_c c7_msg_d rfl rfl rfl rfl
    (by intro u hu; simp at hu; subst hu; exact ⟨rfl, rfl⟩)
  simpa [c7_start_state] using h.1

/-- The message classes of `app.core.models.messages` that constructor
envelopes in this repository refer to. -/
inductive PyClass : Type where
  | hmessage : PyClass
  | smessage : PyClass
  | amessage : PyClass
deriving DecidableEq, Repr

mutual
/-- A Python value as it appears in checkpointed channel values: `None`,
primitives, lists, dicts, and already-constructed typed instances
(`pobj cls attrs` is an instance of the pydantic class `cls` whose attributes
are `attrs`). -/
inductive PyVal : Type where
  | none : PyVal
  | pbool : Bool → PyVal
  | pint : Int → PyVal
  | pstr : String → PyVal
  | plist : PyList → PyVal
  | pdict : PyFields → PyVal
  | pobj : PyClass → PyFields → PyVal

/-- A Python list of values. -/
inductive PyList : Type where
  | nil : PyList
  | cons : PyVal → PyList → PyList

/-- The entries of a Python dict (keys are unique in a real dict; lookup takes
the first match). -/
inductive PyFields : Type where
  | nil : PyFields
  | fcons : String → PyVal → PyFields → PyFields
end

/-- Python `dict.get(key)`. -/
def dict_get : PyFields → String → Option PyVal
  | PyFields.nil, _ => Option.none
  | PyFields.fcons k v fs, key =>
    if k = key then Option.some v else dict_get fs key

/-- Python `key in dict`. -/
def dict_has (fs : PyFields) (key : String) : Bool :=
  (dict_get fs key).isSome

/-- Python list indexing, `xs[i]` for a non-negative index. -/
def pylist_get : PyList → Nat → Option PyVal
  | PyList.nil, _ => Option.none
  | PyList.cons x _, 0 => Option.some x
  | PyList.cons _ xs, Nat.succ i => pylist_get xs i

/-- Python truthiness of a value: `None`, `False`, `0`, empty strings, lists
and dicts are falsy; instances of the modelled pydantic classes are truthy. -/
def py_truthy : PyVal → Bool
  | PyVal.none => false
  | PyVal.pbool b => b
  | PyVal.pint n => !(n == 0)
  | PyVal.pstr s => !s.isEmpty
  | PyVal.plist PyList.nil => false
  | PyVal.plist (PyList.cons _ _) => true
  | PyVal.pdict PyFields.nil => false
  | PyVal.pdict (PyFields.fcons _ _ _) => true
  | PyVal.pobj _ _ => true

/-- Python `value is None`. -/
def py_is_none : PyVal → Bool
  | PyVal.none => true
  | _ => false

/-- Whether an optional dict entry equals the Python int `2` (the `lc` check of
`_transform_constructor_items`). -/
def entry_is_int_two : Option PyVal → Bool
  | Option.some (PyVal.pint n) => n == 2
  | _ => false

/-- Whether an optional dict entry equals the Python string `"constructor"`
(the `type` check of `_transform_constructor_items`). -/
def entry_is_constructor_str : Option PyVal → Bool
  | Option.some (PyVal.pstr s) => s == "constructor"
  | _ => false

/-- The envelope test of `_transform_constructor_items`
(`memory_manager.py`): `data.get("lc") == 2 and data.get("type") ==
"constructor" and "id" in data and "method" in data and "kwargs" in data`. -/
def is_constructor_shape (fs : PyFields) : Bool :=
  entry_is_int_two (dict_get fs "lc") &&
  entry_is_constructor_str (dict_get fs "type") &&
  dict_has fs "id" && dict_has fs "method" && dict_has fs "kwargs"

/-- Read a Python list as a list of strings; `Option.none` when an element is
not a string (in the source, joining such a module path raises and the raw
envelope is returned). -/
def pylist_as_strings : PyList → Option (List String)
  | PyList.nil => Option.some []
  | PyList.cons (PyVal.pstr s) rest =>
    match pylist_as_strings rest with
    | Option.some ss => Option.some (s :: ss)
    | Option.none => Option.none
  | PyList.cons _ _ => Option.none

/-- Modelled: Python's import machinery restricted to the repository's message
classes; any other `module.class` path fails to import, upon which the source
logs a warning and returns the raw envelope. -/
def resolve_class (module_name class_name : String) : Option PyClass :=
  if module_name = "app.core.models.messages" then
    if class_name = "HMessage" then Option.some PyClass.hmessage
    else if class_name = "SMessage" then Option.some PyClass.smessage
    else if class_name = "AMessage" then Option.some PyClass.amessage
    else Option.none
  else Option.none

/-- The module-path handling of `_transform_constructor_items`: `id` must be a
list of at least two strings; the module name is all but the last joined by
dots and the class name is the last component. -/
def envelope_class_of (fs : PyFields) : Option PyClass :=
  match dict_get fs "id" with
  | Option.some (PyVal.plist ps) =>
    match pylist_as_strings ps with
    | Option.some names =>
      if names.length < 2 then Option.none
      else resolve_class (String.intercalate "." names.dropLast)
        (names.getLastD "")
    | Option.none => Option.none
  | _ => Option.none

/-- The method extraction of `_transform_constructor_items`:
`method_info[1] if method_info[1] else "__init__"`; an out-of-range index, a
non-list `method` entry, or a truthy non-string element makes the surrounding
code raise, which the source catches by returning the raw envelope. -/
def envelope_method_name (fs : PyFields) : Option String :=
  match dict_get fs "method" with
  | Option.some (PyVal.plist ms) =>
    match pylist_get ms 1 with
    | Option.some v =>
      if py_truthy v then
        match v with
        | PyVal.pstr s => Option.some s
        | _ => Option.none
      else Option.some "__init__"
    | Option.none => Option.none
  | _ => Option.none

/-- The keys of a dict. -/
def fields_keys : PyFields → List String
  | PyFields.nil => []
  | PyFields.fcons k _ fs => k :: fields_keys fs

/-- The validating `__init__` of the message classes: both `content` and
`name` must be strings and no other keyword is accepted; on validation failure
the construction raises and the source returns the raw envelope. -/
def msg_init_kwargs (kwfs : PyFields) : Option PyFields :=
  match dict_get kwfs "content", dict_get kwfs "name" with
  | Option.some (PyVal.pstr c), Option.some (PyVal.pstr n) =>
    if (fields_keys kwfs).all (fun k => k = "content" || k = "name") then
      Option.some (PyFields.fcons "content" (PyVal.pstr c)
        (PyFields.fcons "name" (PyVal.pstr n) PyFields.nil))
    else Option.none
  | _, _ => Option.none

/-- The construction dispatch at the end of `_transform_constructor_items`:
`model_construct` (present on every pydantic model, skips validation),
`__init__` (the validating constructor), and any other method — on the
modelled classes no other attribute is a classmethod accepting the kwargs, so
that call raises and the source returns the raw envelope `fs`. -/
def dispatch_construct (cls : PyClass) (method_name : String) (tkw : PyVal)
    (fs : PyFields) : PyVal :=
  if method_name = "model_construct" then
    match tkw with
    | PyVal.pdict kwfs => PyVal.pobj cls kwfs
    | _ => PyVal.pdict fs
  else if method_name = "__init__" then
    match tkw with
    | PyVal.pdict kwfs =>
      match msg_init_kwargs kwfs with
      | Option.some attrs => PyVal.pobj cls attrs
      | Option.none => PyVal.pdict fs
    | _ => PyVal.pdict fs
  else PyVal.pdict fs

mutual
/-- `MemoryManager._transform_constructor_items`: recursively rehydrate
constructor envelopes into typed instances; regular dicts and lists are
transformed pointwise, primitives returned as-is, and any failure inside an
envelope (bad path, unknown class, bad method, non-dict kwargs) degrades to
the raw envelope. The transformed kwargs entry is read from the transformed
field list, which by `dict_get_transform_fields` equals the transform of the
original kwargs entry, exactly as in the source. -/
def transform_constructor_items : PyVal → PyVal
  | PyVal.pdict fs =>
    if is_constructor_shape fs then
      match envelope_class_of fs with
      | Option.none => PyVal.pdict fs
      | Option.some cls =>
        match envelope_method_name fs with
        | Option.none => PyVal.pdict fs
        | Option.some method_name =>
          dispatch_construct cls method_name
            ((dict_get (transform_fields fs) "kwargs").getD PyVal.none) fs
    else PyVal.pdict (transform_fields fs)
  | PyVal.plist xs => PyVal.plist (transform_list xs)
  | PyVal.none => PyVal.none
  | PyVal.pbool b => PyVal.pbool b
  | PyVal.pint n => PyVal.pint n
  | PyVal.pstr s => PyVal.pstr s
  | PyVal.pobj cls attrs => PyVal.pobj cls attrs

/-- Pointwise transform of a list. -/
def transform_list : PyList → PyList
  | PyList.nil => PyList.nil
  | PyList.cons x xs =>
    PyList.cons (transform_constructor_items x) (transform_list xs)

/-- Pointwise transform of a dict's values. -/
def transform_fields : PyFields → PyFields
  | PyFields.nil => PyFields.nil
  | PyFields.fcons k v fs =>
    PyFields.fcons k (transform_constructor_items v) (transform_fields fs)
end

theorem dict_get_transform_fields :
    ∀ (fs : PyFields) (key : String),
      dict_get (transform_fields fs) key =
        Option.map transform_constructor_items (dict_get fs key)
  | PyFields.nil, _ => rfl
  | PyFields.fcons k v rest, key => by
    by_cases h : k = key <;>
      simp [transform_fields, dict_get, h, dict_get_transform_fields rest key]

/-- The import path under which a message class is serialized (the `id` entry
of the envelope). -/
def class_module_path : PyClass → PyList
  | PyClass.hmessage =>
    PyList.cons (PyVal.pstr "app") (PyList.cons (PyVal.pstr "core")
      (PyList.cons (PyVal.pstr "models") (PyList.cons (PyVal.pstr "messages")
        (PyList.cons (PyVal.pstr "HMessage") PyList.nil))))
  | PyClass.smessage =>
    PyList.cons (PyVal.pstr "app") (PyList.cons (PyVal.pstr "core")
      (PyList.cons (PyVal.pstr "models") (PyList.cons (PyVal.pstr "messages")
        (PyList.cons (PyVal.pstr "SMessage") PyList.nil))))
  | PyClass.amessage =>
    PyList.cons (PyVal.pstr "app") (PyList.cons (PyVal.pstr "core")
      (PyList.cons (PyVal.pstr "models") (PyList.cons (PyVal.pstr "messages")
        (PyList.cons (PyVal.pstr "AMessage") PyList.nil))))

mutual
/-- Modelled from the spec: the storage-side serializer is outside `src` (it
belongs to the persistence layer); per the structurally-encoded value envelope
of section 6, with the concrete key layout shown in the docstring of
`_transform_constructor_items`, a typed instance is written as a dict with
`lc = 2`, `type = "constructor"`, the class path under `id`,
`method = [None, "model_construct"]`, and the serialized attributes under
`kwargs`; lists and dicts are serialized pointwise and primitives as-is. -/
def serialize_value : PyVal → PyVal
  | PyVal.pobj cls attrs =>
    PyVal.pdict
      (PyFields.fcons "lc" (PyVal.pint 2)
        (PyFields.fcons "type" (PyVal.pstr "constructor")
          (PyFields.fcons "id" (PyVal.plist (class_module_path cls))
            (PyFields.fcons "method"
              (PyVal.plist (PyList.cons PyVal.none
                (PyList.cons (PyVal.pstr "model_construct") PyList.nil)))
              (PyFields.fcons "kwargs"
                (PyVal.pdict (serialize_fields attrs)) PyFields.nil)))))
  | PyVal.plist xs => PyVal.plist (serialize_list xs)
  | PyVal.pdict fs => PyVal.pdict (serialize_fields fs)
  | PyVal.none => PyVal.none
  | PyVal.pbool b => PyVal.pbool b
  | PyVal.pint n => PyVal.pint n
  | PyVal.pstr s => PyVal.pstr s

/-- Pointwise serialization of a list. -/
def serialize_list : PyList → PyList
  | PyList.nil => PyList.nil
  | PyList.cons x xs =>
    PyList.cons (serialize_value x) (serialize_list xs)

/-- Pointwise serialization of a dict's values. -/
def serialize_fields : PyFields → PyFields
  | PyFields.nil => PyFields.nil
  | PyFields.fcons k v fs =>
    PyFields.fcons k (serialize_value v) (serialize_fields fs)
end

mutual
/-- A domain value in the scope of the round-trip claim: no raw dict in it is
shaped like a constructor envelope (such a dict would be rehydrated rather
than read back verbatim), recursively including instance attributes. -/
def plain_value : PyVal → Bool
  | PyVal.pdict fs => !is_constructor_shape fs && plain_fields fs
  | PyVal.plist xs => plain_list xs
  | PyVal.pobj _ attrs => !is_constructor_shape attrs && plain_fields attrs
  | PyVal.none => true
  | PyVal.pbool _ => true
  | PyVal.pint _ => true
  | PyVal.pstr _ => true

/-- All elements plain. -/
def plain_list : PyList → Bool
  | PyList.nil => true
  | PyList.cons x xs => plain_value x && plain_list xs

/-- All values plain. -/
def plain_fields : PyFields → Bool
  | PyFields.nil => true
  | PyFields.fcons _ v fs => plain_value v && plain_fields fs
end

theorem dict_get_serialize_fields :
    ∀ (fs : PyFields) (key : String),
      dict_get (serialize_fields fs) key =
        Option.map serialize_value (dict_get fs key)
  | PyFields.nil, _ => rfl
  | PyFields.fcons k v rest, key => by
    by_cases h : k = key <;>
      simp [serialize_fields, dict_get, h, dict_get_serialize_fields rest key]

theorem entry_is_int_two_serialize (v : PyVal) :
    entry_is_int_two (Option.some (serialize_value v)) =
      entry_is_int_two (Option.some v) := by
  cases v <;> simp [serialize_value, entry_is_int_two]

theorem entry_is_constructor_str_serialize (v : PyVal) :
    entry_is_constructor_str (Option.some (serialize_value v)) =
      entry_is_constructor_str (Option.some v) := by
  cases v <;> simp [serialize_value, entry_is_constructor_str]

theorem isSome_map_serialize (x : Option PyVal) :
    (Option.map serialize_value x).isSome = x.isSome := by
  cases x <;> rfl

/-- Serialization preserves the envelope-shape test of a dict: keys are
unchanged and the `lc` and `type` sentinels are fixed points. -/
theorem is_constructor_shape_serialize_fields (fs : PyFields) :
    is_constructor_shape (serialize_fields fs) = is_constructor_shape fs := by
  simp only [is_constructor_shape, dict_has, dict_get_serialize_fields]
  cases hlc : dict_get fs "lc" <;>
    cases hty : dict_get fs "type" <;>
      simp only [Option.map_none', Option.map_some', isSome_map_serialize,
        entry_is_int_two_serialize, entry_is_constructor_str_serialize]

theorem envelope_class_of_serialized (cls : PyClass) (attrs : PyFields) :
    envelope_class_of
      (PyFields.fcons "lc" (PyVal.pint 2)
        (PyFields.fcons "type" (PyVal.pstr "constructor")
          (PyFields.fcons "id" (PyVal.plist (class_module_path cls))
            (PyFields.fcons "method"
              (PyVal.plist (PyList.cons PyVal.none
                (PyList.cons (PyVal.pstr "model_construct") PyList.nil)))
              (PyFields.fcons "kwargs" (PyVal.pdict attrs)
                PyFields.nil))))) = Option.some cls := by
  cases cls <;> rfl

theorem envelope_method_name_serialized (cls : PyClass) (attrs : PyFields) :
    envelope_method_name
      (PyFields.fcons "lc" (PyVal.pint 2)
        (PyFields.fcons "type" (PyVal.pstr "constructor")
          (PyFields.fcons "id" (PyVal.plist (class_module_path cls))
            (PyFields.fcons "method"
              (PyVal.plist (PyList.cons PyVal.none
                (PyList.cons (PyVal.pstr "model_construct") PyList.nil)))
              (PyFields.fcons "kwargs" (PyVal.pdict attrs)
                PyFields.nil))))) = Option.some "model_construct" := rfl

mutual
/-- Round trip on a single value: rehydrating the serialization of a plain
value restores it. -/
theorem transform_serialize_value :
    ∀ v : PyVal, plain_value v = true →
      transform_constructor_items (serialize_value v) = v
  | PyVal.none, _ => rfl
  | PyVal.pbool _, _ => rfl
  | PyVal.pint _, _ => rfl
  | PyVal.pstr _, _ => rfl
  | PyVal.plist xs, h => by
    have hx : plain_list xs = true := by
      simpa [plain_value] using h
    simp [serialize_value, transform_constructor_items,
      transform_serialize_list xs hx]
  | PyVal.pdict fs, h => by
    have hsh : is_constructor_shape fs = false := by
      have := h
      simp [plain_value, Bool.and_eq_true] at this
      simpa using this.1
    have hpf : plain_fields fs = true := by
      have := h
      simp [plain_value, Bool.and_eq_true] at this
      exact this.2
    simp [serialize_value, transform_constructor_items,
      is_constructor_shape_serialize_fields, hsh,
      transform_serialize_fields fs hpf]
  | PyVal.pobj cls attrs, h => by
    have hsh : is_constructor_shape attrs = false := by
      have := h
      simp [plain_value, Bool.and_eq_true] at this
      simpa using this.1
    have hpf : plain_fields attrs = true := by
      have := h
      simp [plain_value, Bool.and_eq_true] at this
      exact this.2
    have hkw : transform_constructor_items
        (PyVal.pdict (serialize_fields attrs)) = PyVal.pdict attrs := by
      simp [transform_constructor_items,
        is_constructor_shape_serialize_fields, hsh,
        transform_serialize_fields attrs hpf]
    simp only [serialize_value, transform_constructor_items]
    rw [if_pos (by rfl), envelope_class_of_serialized,
      envelope_method_name_serialized]
    have hlook : dict_get
        (transform_fields
          (PyFields.fcons "lc" (PyVal.pint 2)
            (PyFields.fcons "type" (PyVal.pstr "constructor")
              (PyFields.fcons "id" (PyVal.plist (class_module_path cls))
                (PyFields.fcons "method"
                  (PyVal.plist (PyList.cons PyVal.none
                    (PyList.cons (PyVal.pstr "model_construct")
                      PyList.nil)))
                  (PyFields.fcons "kwargs"
                    (PyVal.pdict (serialize_fields attrs))
                    PyFields.nil)))))) "kwargs" =
        Option.some (transform_constructor_items
          (PyVal.pdict (serialize_fields attrs))) := rfl
    rw [hlook]
    simp [dispatch_construct, hkw]

/-- Round trip on a list. -/
theorem transform_serialize_list :
    ∀ xs : PyList, plain_list xs = true →
      transform_list (serialize_list xs) = xs
  | PyList.nil, _ => rfl
  | PyList.cons x xs, h => by
    have hx : plain_value x = true := by
      simp [plain_list, Bool.and_eq_true] at h
      exact h.1
    have hxs : plain_list xs = true := by
      simp [plain_list, Bool.and_eq_true] at h
      exact h.2
    simp [serialize_list, transform_list, transform_serialize_value x hx,
      transform_serialize_list xs hxs]

/-- Round trip on a dict's values. -/
theorem transform_serialize_fields :
    ∀ fs : PyFields, plain_fields fs = true →
      transform_fields (serialize_fields fs) = fs
  | PyFields.nil, _ => rfl
  | PyFields.fcons k v fs, h => by
    have hv : plain_value v = true := by
      simp [plain_fields, Bool.and_eq_true] at h
      exact h.1
    have hfs : plain_fields fs = true := by
      simp [plain_fields, Bool.and_eq_true] at h
      exact h.2
    simp [serialize_fields, transform_fields, transform_serialize_value v hv,
      transform_serialize_fields fs hfs]
end

/-- The addressing tuple built by `MemoryManager.create_thread_config`
(`configurable.thread_id`, `configurable.checkpoint_ns`, optional
`configurable.checkpoint_id`). -/
structure ThreadConfig : Type where
  thread_id : String
  checkpoint_ns : String
  checkpoint_id : Option String
deriving DecidableEq, Repr

/-- `MemoryManager.create_thread_config`: pure construction; the
`checkpoint_id` key is only set when the argument is truthy (a `None` or empty
string is omitted). -/
def create_thread_config (thread_id checkpoint_ns : String)
    (checkpoint_id : Option String) : ThreadConfig :=
  ThreadConfig.mk thread_id checkpoint_ns
    (match checkpoint_id with
      | Option.some c => if c = "" then Option.none else Option.some c
      | Option.none => Option.none)

/-- The outcome of the checkpoint saver's `aget_tuple` for the addressed
thread: a stored checkpoint with its channel values, no stored checkpoint, or
a storage-layer exception. -/
inductive StoreResult : Type where
  | found : PyFields → StoreResult
  | missing : StoreResult
  | raises : StoreResult

/-- `MemoryManager.get_thread_state`: inside a `try` that catches every
exception, a missing/falsy `thread_id` raises `ValueError` (caught, yielding
the empty dict), a storage exception is caught the same way, an absent
checkpoint falls through to the empty dict, and a stored checkpoint's channel
values are rehydrated with `_transform_constructor_items` before being
returned. -/
def get_thread_state (config : ThreadConfig) (store : StoreResult) : PyVal :=
  if config.thread_id = "" then PyVal.pdict PyFields.nil
  else
    match store with
    | StoreResult.found channel_values =>
      transform_constructor_items (PyVal.pdict channel_values)
    | StoreResult.missing => PyVal.pdict PyFields.nil
    | StoreResult.raises => PyVal.pdict PyFields.nil

/-- `MemoryManager.reset_thread_state`: fails loudly when the config carries
no truthy `thread_id`; otherwise `adelete_thread` removes every checkpoint of
the thread, leaving the store with nothing for it. -/
def reset_thread_state (config : ThreadConfig) (_store : StoreResult) :
    Except String StoreResult :=
  if config.thread_id = "" then
    Except.error
      "Thread ID not found in config. It is required to reset thread state"
  else Except.ok StoreResult.missing

theorem py_is_none_dispatch_construct (cls : PyClass) (method_name : String)
    (tkw : PyVal) (fs : PyFields) :
    py_is_none (dispatch_construct cls method_name tkw fs) = false := by
  unfold dispatch_construct
  split
  · split <;> rfl
  · split
    · split
      · split <;> rfl
      · rfl
    · rfl

/-- Rehydrating a dict never produces Python `None`: every branch yields a
dict or a constructed instance. -/
theorem py_is_none_transform_pdict (fs : PyFields) :
    py_is_none (transform_constructor_items (PyVal.pdict fs)) = false := by
  unfold transform_constructor_items
  split
  · split
    · rfl
    · split
      · rfl
      · exact py_is_none_dispatch_construct _ _ _ _
  · rfl

/-- `get_thread_state` never returns Python `None`, whatever the store holds:
its value is always a dict or a rehydrated instance. -/
theorem py_is_none_get_thread_state (config : ThreadConfig)
    (store : StoreResult) :
    py_is_none (get_thread_state config store) = false := by
  unfold get_thread_state
  split
  · rfl
  · cases store with
    | found channel_values => exact py_is_none_transform_pdict channel_values
    | missing => rfl
    | raises => rfl

/-- `TranscriptionData` from `app.core.models.data` (a `TypedDict`); the
`metadata` entry is an arbitrary dict-shaped value. -/
structure TranscriptionData : Type where
  transcription_id : String
  text : String
  duration : Option Float
  language : Option String
  metadata : Option PyVal

/-- `TranscriptionAnalysis` from `app.core.models.data`. -/
structure TranscriptionAnalysis : Type where
  summary : String
  key_topics : List String
  sentiment : String
  main_themes : List String
  important_quotes : List String
  technical_terms : List String

/-- `ExtractedInsights` from `app.core.models.data`. -/
structure ExtractedInsights : Type where
  key_insights : List String
  action_items : List String
  recommendations : List String
  opportunities : List String
  concerns : List String
  next_steps : List String

/-- The initial `ProcessingState` dict handed to the processing graph: a
partial mapping, `Option.none` for keys the dict does not carry. The inner
`Option` of the analysis/insight entries distinguishes a key set to `None`
from an absent key. -/
structure ProcessingInitialState : Type where
  thread_id : Option String
  transcription_id : Option String
  transcription_data : Option TranscriptionData
  transcription_analysis : Option (Option TranscriptionAnalysis)
  extracted_insights : Option (Option ExtractedInsights)

/-- `ProcessingWorkflow.get_initial_state` (`app/core/workflows.py`): requires
truthy `thread_id` and `transcription_id`, then returns the full initial
state with the analysis and insight fields set to `None`. (The source also
rejects a falsy `transcription_data`; here the data is passed as a required
typed value, as `process_transcription` always does.) -/
def processing_workflow_get_initial_state (thread_id transcription_id : String)
    (transcription_data : TranscriptionData) :
    Except String ProcessingInitialState :=
  if thread_id = "" then Except.error "Thread ID is required."
  else if transcription_id = "" then
    Except.error "Transcription ID is required."
  else
    Except.ok (ProcessingInitialState.mk (Option.some thread_id)
      (Option.some transcription_id) (Option.some transcription_data)
      (Option.some Option.none) (Option.some Option.none))

/-- `ProcessingAgent._prepare_initial_state`: the full workflow initial state
for a new thread, otherwise the minimal dict carrying only `thread_id`. -/
def processing_prepare_initial_state (thread_id transcription_id : String)
    (transcription_data : TranscriptionData) (is_new_thread : Bool) :
    Except String ProcessingInitialState :=
  if is_new_thread then
    processing_workflow_get_initial_state thread_id transcription_id
      transcription_data
  else
    Except.ok (ProcessingInitialState.mk (Option.some thread_id) Option.none
      Option.none Option.none Option.none)

/-- The new-thread test of `ProcessingAgent.process_transcription`:
`(await self.memory_manager.get_thread_state(config)) is None`. -/
def processing_is_new_thread (config : ThreadConfig) (store : StoreResult) :
    Bool :=
  py_is_none (get_thread_state config store)

/-- The initial state `ProcessingAgent.process_transcription` hands to the
processing graph, as a function of the inputs and of what the checkpoint
store holds for the thread. -/
def process_transcription_initial_state (thread_id transcription_id : String)
    (transcription_data : TranscriptionData) (store : StoreResult) :
    Except String ProcessingInitialState :=
  processing_prepare_initial_state thread_id transcription_id
    transcription_data
    (processing_is_new_thread (create_thread_config thread_id "" Option.none)
      store)

/-- The status computation of `ProcessingAgent.process_transcription`
(`agent.py` lines 371-378): `status = "completed"`, then
`if (analysis is None) ^ (insights is None): status = "partial"
else: status = "failed"` — the initial assignment is dead, the `if`/`else`
always overwrites it. -/
def transcription_status
    (transcription_analysis : Option TranscriptionAnalysis)
    (extracted_insights : Option ExtractedInsights) : String :=
  let status := "completed"
  let status :=
    if Bool.xor transcription_analysis.isNone extracted_insights.isNone then
      "partial"
    else "failed"
  status

/-- `Intention.GREET.value` from `app.core.models.enums`. -/
def Intention.GREET : String := "greet"

/-- `Agent.INTENT_SEEKER.value` from `app.core.models.enums`. -/
def Agent.INTENT_SEEKER : String := "intent_seeker"

/-- The conversation-entry node of `DefaultWorkflow`: the target of the
`add_edge(START, "intent_seeker")` call in `_setup_graph`
(`app/core/workflows.py`). -/
def default_workflow_entry : String := "intent_seeker"

/-- The `TranscriptionProcessingData` payload handed to
`Assistant.process_message` (constructed in `app/routes/chat.py` with `data`,
`analysis` and `insights` entries, read back in
`Assistant._prepare_initial_state`). -/
structure TranscriptionProcessingData : Type where
  data : TranscriptionData
  analysis : Option TranscriptionAnalysis
  insights : Option ExtractedInsights

/-- The initial `State` dict built by `DefaultWorkflow.get_initial_state`
(`app/core/workflows.py`), with exactly the keys the source sets — including
`current_tasks`, the key actually written there. -/
structure DefaultInitialState : Type where
  thread_id : String
  chat_history : List Msg
  messages : List Msg
  current_intention : String
  current_inquiry : String
  current_tasks : List String
  data_for_the_task : List CollectedData
  transcription_data : TranscriptionData
  transcription_analysis : Option TranscriptionAnalysis
  extracted_insights : Option ExtractedInsights
  next : String

/-- `DefaultWorkflow.get_initial_state`: seeds the chat history with the human
message and sets the conversation-entry node as next step. -/
def default_workflow_get_initial_state (thread_id user_input : String)
    (transcription_data : TranscriptionData)
    (transcription_analysis : Option TranscriptionAnalysis)
    (extracted_insights : Option ExtractedInsights) : DefaultInitialState :=
  DefaultInitialState.mk thread_id
    [Msg.mk MsgRole.user "Human" user_input] [] Intention.GREET "" [] []
    transcription_data transcription_analysis extracted_insights
    Agent.INTENT_SEEKER

/-- The initial state `Assistant._prepare_initial_state` produces: the full
workflow initial state for a new thread, otherwise the minimal delta carrying
the new user message and the drained task fields. -/
inductive InitialStateChoice : Type where
  | full : DefaultInitialState → InitialStateChoice
  | delta : List Msg → List String → List CollectedData → InitialStateChoice

/-- `Assistant._prepare_initial_state` (`agent.py`). -/
def assistant_prepare_initial_state (thread_id user_input : String)
    (transcription_data : TranscriptionProcessingData)
    (is_new_thread : Bool) : InitialStateChoice :=
  let messages := [Msg.mk MsgRole.user "Human" user_input]
  if is_new_thread then
    InitialStateChoice.full
      (default_workflow_get_initial_state thread_id user_input
        transcription_data.data transcription_data.analysis
        transcription_data.insights)
  else InitialStateChoice.delta messages [] []

/-- The new-thread test of `Assistant.process_message`:
`not (await self.memory_manager.get_thread_state(config))` — Python falsiness
of the returned mapping. -/
def assistant_is_new_thread (config : ThreadConfig) (store : StoreResult) :
    Bool :=
  !py_truthy (get_thread_state config store)

/-- The `ProcessedMessage` record (`app.core.models.messages`) without its
wall-clock performance field, which is outside a shallow embedding. -/
structure ProcessedMessageRec : Type where
  response : String
  thread_id : String
  memory_enabled : Bool
  fallback_used : Bool
  message_count : Nat
deriving DecidableEq, Repr

/-- One invocation of the compiled main graph: a final state, an ordinary
exception, or a `RecursionError` carrying "recursion limit" (the only kind
`_process_with_graph` treats specially). -/
inductive GraphOutcome : Type where
  | ok : ConversationalState → GraphOutcome
  | raises : GraphOutcome
  | recursion_limit : GraphOutcome

/-- The external collaborators of one `Assistant.process_message` run: what
the checkpoint store holds for the thread, what the compiled default graph
does with the prepared initial state, and what the compiled fallback graph
does with its seed message. -/
structure AssistantEnv : Type where
  stored : StoreResult
  main_graph : InitialStateChoice → GraphOutcome
  fallback_graph : Msg → Except Unit ConversationalState

/-- The synthetic system message injected by
`Assistant._fallback_process_message`. -/
def general_fallback_message : Msg :=
  Msg.mk MsgRole.system "GeneralFallback"
    "Something unexpected happened. Respond with the available information."

/-- The synthetic system message injected by
`Assistant._handle_recursion_limit_fallback`. -/
def recursion_fallback_message : Msg :=
  Msg.mk MsgRole.system "RecursionFallback"
    "This conversation between agents became too complex. It was necessary to interrupt it. Use the available information to answer the question."

/-- `Assistant._process_with_graph`: run the compiled graph; a
recursion-limit error is remediated in place through the fallback workflow
(whose own failure is re-raised wrapped), any other exception propagates. The
second component counts fallback-workflow invocations. -/
def assistant_process_with_graph (env : AssistantEnv)
    (initial_state : InitialStateChoice) :
    Except Unit ConversationalState × Nat :=
  match env.main_graph initial_state with
  | GraphOutcome.ok s => (Except.ok s, 0)
  | GraphOutcome.raises => (Except.error (), 0)
  | GraphOutcome.recursion_limit =>
    match env.fallback_graph recursion_fallback_message with
    | Except.ok s => (Except.ok s, 1)
    | Except.error _ => (Except.error (), 1)

/-- The reply shaping at the end of `Assistant.process_message`:
`state["chat_history"][-1].content` raises `IndexError` on an empty history;
`message_count` is `len(state["chat_history"])`. -/
def extract_processed_message (thread_id : String) (fallback_used : Bool)
    (s : ConversationalState) : Except Unit ProcessedMessageRec :=
  match s.chat_history.getLast? with
  | Option.some m =>
    Except.ok (ProcessedMessageRec.mk m.content thread_id true fallback_used
      s.chat_history.length)
  | Option.none => Except.error ()

/-- `Assistant.process_message` together with
`Assistant._fallback_process_message`: the `try` body either reuses a
supplied fallback state (when the flag is set and the state truthy) or
prepares an initial state and runs the main graph; any exception from the
body — including a failed reply extraction — enters the fallback path, which
runs the fallback workflow on the synthetic system message and re-enters
`process_message` with the flag set; a failure of the fallback workflow
itself is re-raised to the caller. The fuel bounds the re-entry depth
(`Option.none` = the run does not terminate within the given fuel); the
second component of the result counts fallback-workflow invocations. -/
def process_message (env : AssistantEnv) (user_input thread_id : String)
    (transcription_data : TranscriptionProcessingData) :
    Nat → Bool → Option ConversationalState →
      Option (Except Unit ProcessedMessageRec × Nat)
  | 0, _, _ => Option.none
  | Nat.succ fuel, fallback_used, fallback_state =>
    let attempt : Except Unit ConversationalState × Nat :=
      match fallback_used, fallback_state with
      | true, Option.some fs => (Except.ok fs, 0)
      | _, _ =>
        let config := create_thread_config thread_id "" Option.none
        let is_new_thread := assistant_is_new_thread config env.stored
        let initial_state := assistant_prepare_initial_state thread_id
          user_input transcription_data is_new_thread
        assistant_process_with_graph env initial_state
    let step : Except Unit ProcessedMessageRec :=
      match attempt.1 with
      | Except.ok s => extract_processed_message thread_id fallback_used s
      | Except.error e => Except.error e
    match step with
    | Except.ok pm => Option.some (Except.ok pm, attempt.2)
    | Except.error _ =>
      match env.fallback_graph general_fallback_message with
      | Except.error _ => Option.some (Except.error (), attempt.2 + 1)
      | Except.ok fs =>
        match process_message env user_input thread_id transcription_data
          fuel true (Option.some fs) with
        | Option.none => Option.none
        | Option.some (r, m) => Option.some (r, attempt.2 + m + 1)

/-- The compilation-relevant state of a `BaseAgent`: the `_compiled` flag, the
keys present in `_compiled_apps_cache`, and a counter of how many times
`StateGraph.compile` has been executed. -/
structure AgentCompileState : Type where
  compiled : Bool
  cache_keys : List String
  compile_count : Nat
deriving DecidableEq, Repr

/-- `BaseAgent._get_or_create_compiled_app`: compile only when the
`checkpointer_id` key is absent from the cache, then store and reuse. -/
def get_or_create_compiled_app (st : AgentCompileState)
    (checkpointer_id : String) : AgentCompileState :=
  if checkpointer_id ∈ st.cache_keys then st
  else
    AgentCompileState.mk st.compiled (st.cache_keys ++ [checkpointer_id])
      (st.compile_count + 1)

/-- `BaseAgent.initialize_memory`: set `_compiled` and pre-warm the compiled
graph cache under the default key. -/
def initialize_memory (st : AgentCompileState) : AgentCompileState :=
  get_or_create_compiled_app
    (AgentCompileState.mk true st.cache_keys st.compile_count) "default"

/-- The compilation performed by `Assistant._process_with_graph`: it calls
`self._graph.compile(checkpointer=saver)` unconditionally on every
invocation, without consulting or updating `_compiled_apps_cache`. -/
def assistant_process_with_graph_compile (st : AgentCompileState) :
    AgentCompileState :=
  AgentCompileState.mk st.compiled st.cache_keys (st.compile_count + 1)

/-- The compilations performed by one `Assistant.process_message` invocation
on its normal path: lazy `initialize_memory` on first use, then
`_process_with_graph` compiles the default graph anew. -/
def process_message_compile (st : AgentCompileState) : AgentCompileState :=
  let st1 := if st.compiled then st else initialize_memory st
  assistant_process_with_graph_compile st1

/-- Claim C1 (code bug): `transcription_status` never reports `"completed"`.
The dead initial assignment `status = "completed"` in
`ProcessingAgent.process_transcription` is always overwritten by the
`if`/`else` that follows, so a final state with both `transcription_analysis`
and `extracted_insights` present — the claim's `completed` case — is reported
as `"failed"`; the exactly-one cases match the claim's `"partial"`, and the
neither case is also `"failed"`. -/
theorem C1_transcription_status_code_bug :
    (∀ (a : TranscriptionAnalysis) (i : ExtractedInsights),
      transcription_status (Option.some a) (Option.some i) = "failed") ∧
    (∀ a : TranscriptionAnalysis,
      transcription_status (Option.some a) Option.none = "partial") ∧
    (∀ i : ExtractedInsights,
      transcription_status Option.none (Option.some i) = "partial") ∧
    transcription_status Option.none Option.none = "failed" ∧
    ("failed" : String) ≠ "completed" := by
  refine ⟨fun _ _ => rfl, fun _ => rfl, fun _ => rfl, rfl, by decide⟩

/-- Claim C4: the is-new-thread test of
`ProcessingAgent.process_transcription` compares `get_thread_state` (which
never returns Python `None`) with `None`, so for every input and every store
content the initial state handed to the processing graph is the minimal
mapping carrying only `thread_id`; the full initial `ProcessingState` is
never constructed. -/
theorem C4_minimal_processing_initial_state
    (thread_id transcription_id : String)
    (transcription_data : TranscriptionData) (store : StoreResult) :
    process_transcription_initial_state thread_id transcription_id
        transcription_data store =
      Except.ok (ProcessingInitialState.mk (Option.some thread_id)
        Option.none Option.none Option.none Option.none) ∧
    processing_is_new_thread
      (create_thread_config thread_id "" Option.none) store = false := by
  have hnone := py_is_none_get_thread_state
    (create_thread_config thread_id "" Option.none) store
  constructor
  · simp [process_transcription_initial_state,
      processing_prepare_initial_state, processing_is_new_thread, hnone]
  · simpa [processing_is_new_thread] using hnone

/-- Claim C10: `get_thread_state` catches every exception raised during
checkpoint retrieval (the rehydration helper catches its own failures
internally and cannot raise) and returns the empty state, so for every config
a storage-layer failure is indistinguishable from a thread with no stored
checkpoint, and the conversational runtime's new-thread test then treats the
failing backend as a new thread. -/
theorem C10_storage_failure_indistinguishable (config : ThreadConfig) :
    get_thread_state config StoreResult.raises = PyVal.pdict PyFields.nil ∧
    get_thread_state config StoreResult.raises =
      get_thread_state config StoreResult.missing ∧
    assistant_is_new_thread config StoreResult.raises = true := by
  refine ⟨?_, ?_, ?_⟩ <;>
    simp [get_thread_state, assistant_is_new_thread, py_truthy]

/-- Claim C5: for a thread with no stored checkpoint — including one whose
checkpoints `reset_thread_state` just deleted — `get_thread_state` returns
the empty state rather than raising, the conversational runtime's truthiness
test classifies that as a new thread, and the prepared initial state is the
full `DefaultWorkflow` initial state whose `next` step is the
conversation-entry node. -/
theorem C5_empty_state_seeds_entry (thread_id user_input : String)
    (transcription_data : TranscriptionProcessingData)
    (channel_values : PyFields) (h : thread_id ≠ "") :
    get_thread_state (create_thread_config thread_id "" Option.none)
        StoreResult.missing = PyVal.pdict PyFields.nil ∧
    reset_thread_state (create_thread_config thread_id "" Option.none)
        (StoreResult.found channel_values) =
      Except.ok StoreResult.missing ∧
    assistant_is_new_thread (create_thread_config thread_id "" Option.none)
        StoreResult.missing = true ∧
    assistant_prepare_initial_state thread_id user_input transcription_data
        (assistant_is_new_thread
          (create_thread_config thread_id "" Option.none)
          StoreResult.missing) =
      InitialStateChoice.full
        (default_workflow_get_initial_state thread_id user_input
          transcription_data.data transcription_data.analysis
          transcription_data.insights) ∧
    (default_workflow_get_initial_state thread_id user_input
        transcription_data.data transcription_data.analysis
        transcription_data.insights).next = default_workflow_entry := by
  have hget : get_thread_state
      (create_thread_config thread_id "" Option.none) StoreResult.missing =
      PyVal.pdict PyFields.nil := by
    simp [get_thread_state, create_thread_config]
  have hnew : assistant_is_new_thread
      (create_thread_config thread_id "" Option.none) StoreResult.missing =
      true := by
    simp [assistant_is_new_thread, hget, py_truthy]
  refine ⟨hget, ?_, hnew, ?_, rfl⟩
  · simp [reset_thread_state, create_thread_config, h]
  · simp [hnew, assistant_prepare_initial_state]

/-- Witness for C5 at a concrete thread. -/
theorem C5_empty_state_seeds_entry_witness :
    assistant_prepare_initial_state "thread-7" "hello"
        (TranscriptionProcessingData.mk
          (TranscriptionData.mk "tr-7" "some text" Option.none Option.none
            Option.none) Option.none Option.none)
        (assistant_is_new_thread
          (create_thread_config "thread-7" "" Option.none)
          StoreResult.missing) =
      InitialStateChoice.full
        (default_workflow_get_initial_state "thread-7" "hello"
          (TranscriptionData.mk "tr-7" "some text" Option.none Option.none
            Option.none) Option.none Option.none) := by
  exact (C5_empty_state_seeds_entry "thread-7" "hello"
    (TranscriptionProcessingData.mk
      (TranscriptionData.mk "tr-7" "some text" Option.none Option.none
        Option.none) Option.none Option.none)
    PyFields.nil (by decide)).2.2.2.1

/-- Claim C9: serializing a value as a structurally-encoded constructor
envelope and reading it back through `get_thread_state` restores the original
typed value field-for-field, including envelopes nested inside lists and
mappings: the first conjunct is the round trip on an arbitrary plain value,
the second reads a whole serialized state dict back through
`get_thread_state`. -/
theorem C9_envelope_round_trip (v : PyVal) (config : ThreadConfig)
    (state_fields : PyFields) (hv : plain_value v = true)
    (hconfig : config.thread_id ≠ "")
    (hstate : plain_value (PyVal.pdict state_fields) = true) :
    transform_constructor_items (serialize_value v) = v ∧
    get_thread_state config
        (StoreResult.found (serialize_fields state_fields)) =
      PyVal.pdict state_fields := by
  have hsh : is_constructor_shape state_fields = false := by
    simp [plain_value, Bool.and_eq_true] at hstate
    simpa using hstate.1
  have hpf : plain_fields state_fields = true := by
    simp [plain_value, Bool.and_eq_true] at hstate
    exact hstate.2
  refine ⟨transform_serialize_value v hv, ?_⟩
  simp [get_thread_state, hconfig, transform_constructor_items,
    is_constructor_shape_serialize_fields, hsh,
    transform_serialize_fields state_fields hpf]

/-- A concrete stored state: a chat history with one typed message nested in
a list, plus a plain scalar field. -/
def c9_state_fields : PyFields :=
  PyFields.fcons "chat_history"
    (PyVal.plist (PyList.cons
      (PyVal.pobj PyClass.hmessage
        (PyFields.fcons "content" (PyVal.pstr "Hello")
          (PyFields.fcons "name" (PyVal.pstr "Human") PyFields.nil)))
      PyList.nil))
    (PyFields.fcons "next" (PyVal.pstr "manager") PyFields.nil)

/-- Witness for C9: the concrete state round-trips through serialization and
`get_thread_state`. -/
theorem C9_envelope_round_trip_witness :
    get_thread_state (ThreadConfig.mk "thread-9" "" Option.none)
        (StoreResult.found (serialize_fields c9_state_fields)) =
      PyVal.pdict c9_state_fields := by
  exact (C9_envelope_round_trip (PyVal.pdict c9_state_fields)
    (ThreadConfig.mk "thread-9" "" Option.none) c9_state_fields rfl
    (by decide) rfl).2

/-- An environment in which the main workflow raises and the fallback
workflow itself also raises. -/
def env_fallback_raises : AssistantEnv :=
  AssistantEnv.mk StoreResult.missing (fun _ => GraphOutcome.raises)
    (fun _ => Except.error ())

/-- A sample transcription payload. -/
def sample_tpd : TranscriptionProcessingData :=
  TranscriptionProcessingData.mk
    (TranscriptionData.mk "tr-1" "hello world" Option.none Option.none
      Option.none) Option.none Option.none

/-- Counterexample to claim C2 as stated: when the main workflow raises and
the fallback workflow run also raises, `process_message` propagates an
exception to the caller (the `Except.error`) instead of returning a
`ProcessedMessage` with `fallback_used = true`; the second component records
that the fallback path ran once. -/
theorem C2_counterexample :
    process_message env_fallback_raises "hello" "thread-1" sample_tpd 5
        false Option.none =
      Option.some (Except.error (), 1) := rfl

/-- Claim C2 as amended: if the main workflow raises and the fallback
workflow run succeeds with a state whose chat history ends in a message with
non-empty content, the caller receives a `ProcessedMessage` with
`fallback_used = true` and that non-empty content as response, after exactly
one fallback invocation; the exception is not surfaced. -/
theorem C2_fallback_reply_amended (env : AssistantEnv)
    (user_input thread_id : String)
    (transcription_data : TranscriptionProcessingData) (fuel : Nat)
    (fs : ConversationalState) (m : Msg)
    (hmain : env.main_graph
        (assistant_prepare_initial_state thread_id user_input
          transcription_data
          (assistant_is_new_thread
            (create_thread_config thread_id "" Option.none) env.stored)) =
      GraphOutcome.raises)
    (hfb : env.fallback_graph general_fallback_message = Except.ok fs)
    (hlast : fs.chat_history.getLast? = Option.some m)
    (hne : m.content ≠ "") :
    process_message env user_input thread_id transcription_data (fuel + 2)
        false Option.none =
      Option.some (Except.ok (ProcessedMessageRec.mk m.content thread_id
        true true fs.chat_history.length), 1) ∧
    m.content ≠ "" := by
  refine ⟨?_, hne⟩
  show process_message env user_input thread_id transcription_data
    (Nat.succ (fuel + 1)) false Option.none = _
  simp [process_message, assistant_process_with_graph, hmain, hfb,
    extract_processed_message, hlast]

/-- An environment whose fallback workflow succeeds with a one-message chat
history. -/
def env_fallback_ok : AssistantEnv :=
  AssistantEnv.mk StoreResult.missing (fun _ => GraphOutcome.raises)
    (fun _ => Except.ok (ConversationalState.mk "thread-2"
      [Msg.mk MsgRole.system "Touchpoint" "Best effort answer."] []
      "touchpoint"))

/-- Witness for the amended C2 at a concrete environment. -/
theorem C2_fallback_reply_amended_witness :
    process_message env_fallback_ok "hi" "thread-2" sample_tpd 2 false
        Option.none =
      Option.some (Except.ok (ProcessedMessageRec.mk "Best effort answer."
        "thread-2" true true 1), 1) := by
  exact (C2_fallback_reply_amended env_fallback_ok "hi" "thread-2"
    sample_tpd 0
    (ConversationalState.mk "thread-2"
      [Msg.mk MsgRole.system "Touchpoint" "Best effort answer."] []
      "touchpoint")
    (Msg.mk MsgRole.system "Touchpoint" "Best effort answer.")
    rfl rfl rfl (by decide)).1

/-- Counterexample to claim C3 as stated: `process_message` entered with the
fallback flag set and a fallback-produced state whose reply extraction fails
(empty chat history) re-enters the fallback path — the count is 1, not 0 —
because the `except` clause re-invokes `_fallback_process_message`
unconditionally, without consulting the flag. -/
theorem C3_counterexample :
    process_message env_fallback_raises "hello" "thread-1" sample_tpd 3 true
        (Option.some (ConversationalState.mk "thread-1" [] [] "touchpoint")) =
      Option.some (Except.error (), 1) := rfl

/-- Claim C3 as amended: entered with the fallback flag set and a
fallback-produced state whose chat history is non-empty (so reply extraction
succeeds), `process_message` returns without invoking the fallback path — or
the main graph — again: the fallback-invocation count is 0. -/
theorem C3_no_fallback_reentry_amended (env : AssistantEnv)
    (user_input thread_id : String)
    (transcription_data : TranscriptionProcessingData) (fuel : Nat)
    (fs : ConversationalState) (m : Msg)
    (hlast : fs.chat_history.getLast? = Option.some m) :
    process_message env user_input thread_id transcription_data (fuel + 1)
        true (Option.some fs) =
      Option.some (Except.ok (ProcessedMessageRec.mk m.content thread_id
        true true fs.chat_history.length), 0) := by
  show process_message env user_input thread_id transcription_data
    (Nat.succ fuel) true (Option.some fs) = _
  simp [process_message, extract_processed_message, hlast]

/-- Witness for the amended C3 at a concrete fallback state. -/
theorem C3_no_fallback_reentry_amended_witness :
    process_message env_fallback_raises "hi" "thread-3" sample_tpd 1 true
        (Option.some (ConversationalState.mk "thread-3"
          [Msg.mk MsgRole.system "Touchpoint" "Recovered reply."] []
          "touchpoint")) =
      Option.some (Except.ok (ProcessedMessageRec.mk "Recovered reply."
        "thread-3" true true 1), 0) := by
  exact C3_no_fallback_reentry_amended env_fallback_raises "hi" "thread-3"
    sample_tpd 0
    (ConversationalState.mk "thread-3"
      [Msg.mk MsgRole.system "Touchpoint" "Recovered reply."] []
      "touchpoint")
    (Msg.mk MsgRole.system "Touchpoint" "Recovered reply.") rfl

/-- Claim C8 (code bug): the cache of `_get_or_create_compiled_app` does
compile at most once per key (third conjunct), but
`Assistant._process_with_graph` bypasses it and compiles the default graph
anew on every call (second conjunct), so after initialization two
`process_message` invocations perform two further compilations — three in
total — where the claim says compilation never repeats per request. -/
theorem C8_compile_per_request_code_bug :
    (process_message_compile (process_message_compile
        (initialize_memory (AgentCompileState.mk false [] 0)))).compile_count
      = 3 ∧
    (∀ st : AgentCompileState,
      (assistant_process_with_graph_compile st).compile_count =
        st.compile_count + 1) ∧
    (∀ st : AgentCompileState,
      get_or_create_compiled_app (get_or_create_compiled_app st "default")
        "default" = get_or_create_compiled_app st "default") := by
  refine ⟨rfl, fun st => rfl, fun st => ?_⟩
  unfold get_or_create_compiled_app
  by_cases h : "default" ∈ st.cache_keys
  · simp [h]
  · simp [h]

end TheOracle
